import Mathlib

/-!
Verification of the music-video orchestrator's retry, settlement, fan-out and
task-dispatch logic against its natural-language specification.  Each TypeScript
function under scrutiny is embedded shallowly as an executable Lean definition;
external collaborators (ledger, chain, remote agents) are modelled as oracles
supplied through explicit world/environment records.
-/

namespace MVOrch

/-! ## RetryPolicy: `src/utils/retryOperation.ts` -/

/-- Outcome of a `retryOperation` run: the final result (`Except.error none`
models the `throw new Error("Unreachable code in retryOperation")` line that the
loop can only reach with exhausted fuel) together with the list of `onError`
callback invocations `(err, attempt, maxRetries)` in invocation order. -/
structure RetryOut (ε α : Type) where
  result : Except (Option ε) α
  callbacks : List (ε × Nat × Nat)

/-- Embedding of the `while (attempt <= maxRetries)` loop of `retryOperation`.
`op k` is the outcome of the `k`-th (zero-based) attempt of `operation()`.  Each
caught error first records the callback invocation `(err, attempt, maxRetries)`;
if `attempt === maxRetries` the error is rethrown, otherwise `attempt++` and the
loop continues.  `fuel` counts the remaining loop iterations
(`maxRetries + 1 - attempt` at the top-level call); at fuel `0` the loop guard
has failed and the unreachable `throw` runs. -/
def retryGo (op : Nat → Except ε α) (maxRetries : Nat) : Nat → Nat → RetryOut ε α
  | _, 0 => ⟨.error none, []⟩
  | attempt, fuel + 1 =>
    match op attempt with
    | .ok a => ⟨.ok a, []⟩
    | .error e =>
      if attempt = maxRetries then
        ⟨.error (some e), [(e, attempt, maxRetries)]⟩
      else
        let rest := retryGo op maxRetries (attempt + 1) fuel
        ⟨rest.result, (e, attempt, maxRetries) :: rest.callbacks⟩

/-- Embedding of `retryOperation(operation, maxRetries, onError)`: run the loop
from `attempt = 0` with enough fuel for the `maxRetries + 1` admitted attempts. -/
def retryOperation (op : Nat → Except ε α) (maxRetries : Nat) : RetryOut ε α :=
  retryGo op maxRetries 0 (maxRetries + 1)

theorem retryGo_all_fail (op : Nat → Except ε α) (e : Nat → ε) (R : Nat) :
    ∀ fuel attempt, attempt + fuel = R →
      (∀ k, attempt ≤ k → k ≤ R → op k = .error (e k)) →
      retryGo op R attempt (fuel + 1) =
        ⟨.error (some (e R)), (List.range' attempt (fuel + 1)).map fun k => (e k, k, R)⟩ := by
  intro fuel
  induction fuel with
  | zero =>
    intro attempt hsum hop
    have ha : attempt = R := by omega
    subst ha
    simp [retryGo, hop attempt le_rfl (by omega), List.range']
  | succ n ih =>
    intro attempt hsum hop
    have hne : attempt ≠ R := by omega
    have hstep := ih (attempt + 1) (by omega)
      (fun k hk₁ hk₂ => hop k (by omega) hk₂)
    rw [retryGo, hop attempt (le_refl attempt) (by omega)]
    dsimp only
    rw [if_neg hne, hstep]
    simp [List.range'_succ]

theorem retryOperation_all_fail (op : Nat → Except ε α) (e : Nat → ε) (R : Nat)
    (hop : ∀ k, k ≤ R → op k = .error (e k)) :
    retryOperation op R =
      ⟨.error (some (e R)), (List.range (R + 1)).map fun k => (e k, k, R)⟩ := by
  have h := retryGo_all_fail op e R R 0 (by omega) (fun k _ hk₂ => hop k hk₂)
  simpa [retryOperation, List.range_eq_range'] using h

/-- Number of attempts actually performed by a `retryOperation` run: every
failed attempt logged one callback record, and a successful final attempt adds
one more invocation of `operation()`. -/
def retryAttempts (r : RetryOut ε α) : Nat :=
  r.callbacks.length + (match r.result with | .ok _ => 1 | .error _ => 0)

/-- C1, counterexample.  Claim: an operation failing on all `R+1` attempts makes
`retryOperation` invoke the per-attempt callback exactly `R` times ("the last
failure is thrown without a callback invocation").  In the code the callback is
invoked inside the `catch` block before the `attempt === maxRetries` test, so
the last failure also fires the callback: with `R = 1` and an operation that
always fails, the callback runs twice, not once. -/
theorem C1_counterexample :
    (retryOperation (fun _ => (Except.error 0 : Except Nat Nat)) 1).callbacks.length = 2 ∧
    (retryOperation (fun _ => (Except.error 0 : Except Nat Nat)) 1).callbacks.length ≠ 1 :=
  ⟨rfl, by decide⟩

/-- C1, amended: if the operation fails on all `R+1` attempts (attempt `k`
failing with error `e k`), `retryOperation` propagates the final error `e R`
and invokes the callback exactly `R + 1` times — once per failed attempt,
including the last — with zero-based attempt indices `0..R`. -/
theorem C1_retry_exhaustion (op : Nat → Except ε α) (e : Nat → ε) (R : Nat)
    (hop : ∀ k, k ≤ R → op k = .error (e k)) :
    (retryOperation op R).result = .error (some (e R)) ∧
    (retryOperation op R).callbacks = (List.range (R + 1)).map (fun k => (e k, k, R)) ∧
    (retryOperation op R).callbacks.length = R + 1 := by
  rw [retryOperation_all_fail op e R hop]
  simp

/-- C1, witness: concrete run with `R = 2` and an always-failing operation. -/
theorem C1_retry_exhaustion_witness :
    (retryOperation (fun _ => (Except.error 7 : Except Nat Nat)) 2).result = .error (some 7) ∧
    (retryOperation (fun _ => (Except.error 7 : Except Nat Nat)) 2).callbacks =
      (List.range 3).map (fun k => (7, k, 2)) ∧
    (retryOperation (fun _ => (Except.error 7 : Except Nat Nat)) 2).callbacks.length = 3 :=
  C1_retry_exhaustion (fun _ => Except.error 7) (fun _ => 7) 2 (fun _ _ => rfl)

/-! ## Chain layer: `src/payments/blockchain.ts` -/

/-- On-chain actions submitted by the orchestrator wallet, in submission
order. -/
inductive ChainAction
  | fetchNonce
  | approveTx (nonce : Nat) (maxAmountIn : Nat)
  | swapTx (nonce : Nat) (amountOut : Nat) (maxAmountIn : Nat)
  | transferTx (nonce : Option Nat) (amountBaseUnits : Nat)
deriving DecidableEq, Repr

/-- Failure modes of the chain layer (which error object was thrown). -/
inductive ChainErr
  | quoteError
  | approveError
  | swapError
  | transferError
deriving DecidableEq, Repr

/-- Result record of `transferAmountToAgentWallet`. -/
structure TransferResult where
  success : Bool
  txHash : Option Nat
deriving DecidableEq, Repr

/-- Environment of one `transferAmountToAgentWallet` call: the wallet's
base-unit token balance (`balanceOf`), the token's `decimals()`, whether the
submitted transfer transaction fails (`tx.wait()` rejects), and the hash the
submitted transaction receives. -/
structure TransferEnv where
  balance : Nat
  decimals : Nat
  txFails : Bool
  txHash : Nat
deriving DecidableEq, Repr

/-- Embedding of `transferAmountToAgentWallet(tokenAddress, signer, agentWallet,
amount, nonce?)`.  `amount` is the human-readable amount string, modelled as the
natural number it denotes.  The guard `balance.lt(amount)` compares the
base-unit balance against the unscaled amount string; only afterwards is the
amount scaled with `parseUnits(amount, decimals)` (that is,
`amount * 10 ^ decimals`) for the submitted transfer. -/
def transferAmountToAgentWallet (env : TransferEnv) (amount : Nat) (nonce : Option Nat) :
    Except ChainErr TransferResult × List ChainAction :=
  if env.balance < amount then
    (.ok ⟨false, none⟩, [])
  else
    let amountBN := amount * 10 ^ env.decimals
    let act := ChainAction.transferTx nonce amountBN
    if env.txFails then (.error .transferError, [act])
    else (.ok ⟨true, some env.txHash⟩, [act])

/-- Environment of one `performSwapForPlan` attempt: outcome of the quote phase
(`getTokenData` / pair lookup / trade construction), the SDK-computed
`maximumAmountIn` with 1% slippage, the nonce returned by
`getTransactionCount(wallet, "pending")`, the fates of the approve and swap
transactions, and the state seen by the inner `transferAmountToAgentWallet`. -/
structure SwapEnv where
  quoteFails : Bool
  maxAmountIn : Nat
  startingNonce : Nat
  approveFails : Bool
  swapFails : Bool
  swapTxHash : Nat
  transfer : TransferEnv
deriving DecidableEq, Repr

/-- Result record of `performSwapForPlan`. -/
structure SwapResult where
  success : Bool
  swapTxHash : Option Nat
  transferTxHash : Option Nat
deriving DecidableEq, Repr

/-- Embedding of `performSwapForPlan(requiredAmount, ourToken, extToken,
agentWallet, networkId)`.  After the quote phase the starting nonce is fetched
once; the approve transaction uses it, `nonce++`, the swap transaction uses the
incremented value, `nonce++` again, and the transfer helper receives the next
value.  Any thrown error is logged and rethrown by the surrounding
`try`/`catch`.  On reaching the end the function returns `success: true`
unconditionally, forwarding only `transferResult.txHash` (the `success` flag of
the transfer result is dropped). -/
def performSwapForPlan (env : SwapEnv) (requiredAmount : Nat) :
    Except ChainErr SwapResult × List ChainAction :=
  if env.quoteFails then (.error .quoteError, [])
  else
    let nonce := env.startingNonce
    let approveAct := ChainAction.approveTx nonce env.maxAmountIn
    if env.approveFails then (.error .approveError, [ChainAction.fetchNonce, approveAct])
    else
      let swapAct := ChainAction.swapTx (nonce + 1) requiredAmount env.maxAmountIn
      if env.swapFails then
        (.error .swapError, [ChainAction.fetchNonce, approveAct, swapAct])
      else
        let tr := transferAmountToAgentWallet env.transfer requiredAmount (some (nonce + 2))
        match tr.1 with
        | .error e => (.error e, [ChainAction.fetchNonce, approveAct, swapAct] ++ tr.2)
        | .ok trRes =>
          (.ok ⟨true, some env.swapTxHash, trRes.txHash⟩,
            [ChainAction.fetchNonce, approveAct, swapAct] ++ tr.2)

/-- C10: `transferAmountToAgentWallet` returns `{ success: false }` and submits
no transaction exactly when the wallet's base-unit balance is below the plain
integer value of the amount string; otherwise it submits a transfer of
`parseUnits(amount, decimals) = amount * 10 ^ decimals` base units (and, when
that transaction goes through, returns success with its hash).  The
insufficiency guard thus compares the base-unit balance against the unscaled
amount, not against the scaled amount actually transferred. -/
theorem C10_transfer_guard_unscaled (env : TransferEnv) (amount : Nat) (nonce : Option Nat) :
    ((transferAmountToAgentWallet env amount nonce).1 = .ok ⟨false, none⟩ ∧
        (transferAmountToAgentWallet env amount nonce).2 = [] ↔
      env.balance < amount) ∧
    (amount ≤ env.balance →
      (transferAmountToAgentWallet env amount nonce).2 =
          [ChainAction.transferTx nonce (amount * 10 ^ env.decimals)] ∧
        (env.txFails = false →
          (transferAmountToAgentWallet env amount nonce).1 = .ok ⟨true, some env.txHash⟩)) := by
  unfold transferAmountToAgentWallet
  by_cases hlt : env.balance < amount
  · simp [hlt]
  · rcases hf : env.txFails <;> simp [hlt, hf]

/-- C10, witness: wallet balance 5 ≥ amount 3, three decimals, healthy
transaction. -/
theorem C10_transfer_guard_unscaled_witness :
    (3 ≤ (5 : Nat)) ∧
    (transferAmountToAgentWallet ⟨5, 3, false, 99⟩ 3 (some 11)).2 =
      [ChainAction.transferTx (some 11) 3000] ∧
    (transferAmountToAgentWallet ⟨5, 3, false, 99⟩ 3 (some 11)).1 = .ok ⟨true, some 99⟩ := by
  refine ⟨by decide, ?_, ?_⟩
  · exact ((C10_transfer_guard_unscaled ⟨5, 3, false, 99⟩ 3 (some 11)).2 (by decide)).1
  · exact ((C10_transfer_guard_unscaled ⟨5, 3, false, 99⟩ 3 (some 11)).2 (by decide)).2 rfl

/-- C7: within one `performSwapForPlan` settlement in which all three
transactions are submitted (quote succeeds, approve and swap go through, and
the transfer guard passes), the starting nonce is fetched from the network
exactly once, and the approve, swap and transfer transactions carry the
strictly consecutive nonces `n`, `n + 1`, `n + 2`, where `n` is the fetched
value; the action trace contains no second nonce fetch. -/
theorem C7_nonce_sequencing (env : SwapEnv) (amount : Nat)
    (hq : env.quoteFails = false) (ha : env.approveFails = false)
    (hs : env.swapFails = false) (hb : amount ≤ env.transfer.balance) :
    (performSwapForPlan env amount).2 =
      [ChainAction.fetchNonce,
        ChainAction.approveTx env.startingNonce env.maxAmountIn,
        ChainAction.swapTx (env.startingNonce + 1) amount env.maxAmountIn,
        ChainAction.transferTx (some (env.startingNonce + 2))
          (amount * 10 ^ env.transfer.decimals)] ∧
    (performSwapForPlan env amount).2.count ChainAction.fetchNonce = 1 := by
  have hnl : ¬ env.transfer.balance < amount := Nat.not_lt.mpr hb
  rcases hf : env.transfer.txFails <;>
    · constructor
      · simp [performSwapForPlan, transferAmountToAgentWallet, hq, ha, hs, hnl, hf]
      · simp [performSwapForPlan, transferAmountToAgentWallet, hq, ha, hs, hnl, hf,
          List.count_cons]

/-- C7, witness: concrete healthy swap environment with starting nonce 10. -/
theorem C7_nonce_sequencing_witness :
    (performSwapForPlan ⟨false, 500, 10, false, false, 77, ⟨9, 2, false, 88⟩⟩ 4).2 =
      [ChainAction.fetchNonce,
        ChainAction.approveTx 10 500,
        ChainAction.swapTx 11 4 500,
        ChainAction.transferTx (some 12) 400] ∧
    (performSwapForPlan ⟨false, 500, 10, false, false, 77, ⟨9, 2, false, 88⟩⟩ 4).2.count
        ChainAction.fetchNonce = 1 :=
  C7_nonce_sequencing ⟨false, 500, 10, false, false, 77, ⟨9, 2, false, 88⟩⟩ 4
    rfl rfl rfl (by decide)

/-! ## Settlement: `src/payments/planService.ts` -/

theorem retryOperation_first_ok (op : Nat → Except ε α) (R : Nat) (a : α)
    (h : op 0 = .ok a) : retryOperation op R = ⟨.ok a, []⟩ := by
  unfold retryOperation
  rw [retryGo, h]

/-- Result of `payments.getPlanBalance`. -/
structure BalanceResult where
  balance : Nat
  isOwner : Bool
deriving DecidableEq, Repr

/-- Result of `payments.orderPlan`. -/
structure OrderResult where
  success : Bool
  agreementId : Nat
deriving DecidableEq, Repr

/-- One mint event returned by `findERC1155Mints`. -/
structure MintEvent where
  txHash : Nat
  blockNumber : Nat
  value : Nat
deriving DecidableEq, Repr

/-- Failure modes of the ledger-side oracles used during settlement. -/
inductive LedgerErr
  | balanceError
  | sufficiencyError
  | orderError
  | scanError
deriving DecidableEq, Repr

/-- Settlement-layer observable events: one entry per external call attempt and
per step-ledger write (`sendStepErrorAndLog` performs
`updateStep(step_status: "Failed")`). -/
inductive SEvent
  | getPlanBalanceCall
  | isBalanceSufficientCall
  | swapCall
  | orderPlanCall
  | mintScanCall
  | stepFailedWrite
deriving DecidableEq, Repr

/-- World of one settlement run (`ensureSufficientBalance`): ledger and chain
oracles.  Attempt-indexed oracles (`...At k`) give the outcome of the `k`-th
attempt performed under a `retryOperation` wrapper; plan-descriptor data comes
through the `PlanDDOHelper` accessors (token addresses, price, agent wallet,
with `none` for a missing/empty field). -/
structure SettleWorld where
  getPlanBalance : Except LedgerErr BalanceResult
  externalTokenAddress : Option Nat
  ourTokenAddress : Option Nat
  planPrice : Nat
  agentWallet : Option Nat
  isBalanceSufficientAt : Nat → Except LedgerErr Bool
  swapEnvAt : Nat → SwapEnv
  orderPlanAt : Nat → Except LedgerErr OrderResult
  mintScan : Except LedgerErr (List MintEvent)

/-- Embedding of `getAndCheckBalance`: a single `payments.getPlanBalance` call
inside `try`/`catch` — no `retryOperation` wrapper; on error the step is
written `Failed` (via `sendStepErrorAndLog`) and `null` is returned. -/
def getAndCheckBalance (w : SettleWorld) : Option BalanceResult × List SEvent :=
  match w.getPlanBalance with
  | .error _ => (none, [SEvent.getPlanBalanceCall, SEvent.stepFailedWrite])
  | .ok b => (some b, [SEvent.getPlanBalanceCall])

/-- Embedding of `handleTokenSwapIfNeeded`: require the external token address,
our token address and the agent wallet (missing ones fail the step); check the
wallet's target-token sufficiency under `retryOperation(·, 2, cb)`; if
insufficient, run `performSwapForPlan` under `retryOperation(·, 2, cb)`;
exhausted retries or `success: false` write the step `Failed` and abort. -/
def handleTokenSwapIfNeeded (w : SettleWorld) : Bool × List SEvent :=
  match w.externalTokenAddress, w.ourTokenAddress, w.agentWallet with
  | some _, some _, some _ =>
    let r := retryOperation w.isBalanceSufficientAt 2
    let evs := List.replicate (retryAttempts r) SEvent.isBalanceSufficientCall
    match r.result with
    | .error _ => (false, evs ++ [SEvent.stepFailedWrite])
    | .ok sufficient =>
      if sufficient then (true, evs)
      else
        let sw := retryOperation (fun k => (performSwapForPlan (w.swapEnvAt k) w.planPrice).1) 2
        let swEvs := List.replicate (retryAttempts sw) SEvent.swapCall
        match sw.result with
        | .error _ => (false, evs ++ (swEvs ++ [SEvent.stepFailedWrite]))
        | .ok swapResult =>
          if swapResult.success then (true, evs ++ swEvs)
          else (false, evs ++ (swEvs ++ [SEvent.stepFailedWrite]))
  | _, _, _ => (false, [SEvent.stepFailedWrite])

/-- Embedding of `orderCreditsForPlan`: record the block height, order credits
under `retryOperation(·, 2, cb)`; a reported `success: false` throws; then a
single un-retried `findERC1155Mints` scan (whose error is caught by the same
`catch`, writing the step `Failed`). -/
def orderCreditsForPlan (w : SettleWorld) : Bool × List SEvent :=
  let r := retryOperation w.orderPlanAt 2
  let evs := List.replicate (retryAttempts r) SEvent.orderPlanCall
  match r.result with
  | .error _ => (false, evs ++ [SEvent.stepFailedWrite])
  | .ok orderResult =>
    if orderResult.success then
      match w.mintScan with
      | .error _ => (false, evs ++ [SEvent.mintScanCall, SEvent.stepFailedWrite])
      | .ok _ => (true, evs ++ [SEvent.mintScanCall])
    else
      (false, evs ++ [SEvent.stepFailedWrite])

/-- The token-difference test of `handleInsufficientBalance`:
`externalTokenAddress && ourTokenAddress && ext.toLowerCase() !== our.toLowerCase()`
(addresses are modelled already case-normalised). -/
def tokensDiffer (w : SettleWorld) : Bool :=
  match w.externalTokenAddress, w.ourTokenAddress with
  | some ext, some our => ext != our
  | _, _ => false

/-- Embedding of `handleInsufficientBalance`: when the plan tokens differ, run
the swap flow and abort on its failure; then (or directly, when tokens match or
an address is missing) order credits. -/
def handleInsufficientBalance (w : SettleWorld) : Bool × List SEvent :=
  if tokensDiffer w then
    let sw := handleTokenSwapIfNeeded w
    if sw.1 then
      let ord := orderCreditsForPlan w
      (ord.1, sw.2 ++ ord.2)
    else (false, sw.2)
  else orderCreditsForPlan w

/-- Embedding of `ensureSufficientBalance`: query the plan balance once; when
it is below the requirement and the caller is not the plan owner, run the
insufficient-balance flow; otherwise succeed immediately. -/
def ensureSufficientBalance (w : SettleWorld) (requiredBalance : Nat) : Bool × List SEvent :=
  let gb := getAndCheckBalance w
  match gb.1 with
  | none => (false, gb.2)
  | some b =>
    if b.balance < requiredBalance && !b.isOwner then
      let r := handleInsufficientBalance w
      (r.1, gb.2 ++ r.2)
    else (true, gb.2)

/-- Settlement world exhibiting the C2 divergence: plan balance 0 below the
required 1 credit, differing plan tokens, own target-token balance
insufficient; on each swap attempt the quote, approve and swap transactions
succeed while the orchestrator wallet's target-token base-unit balance (0) is
below the plain amount (5), so the transfer helper declines with
`{ success: false }` without throwing. -/
def C2world : SettleWorld where
  getPlanBalance := .ok ⟨0, false⟩
  externalTokenAddress := some 1
  ourTokenAddress := some 2
  planPrice := 5
  agentWallet := some 3
  isBalanceSufficientAt := fun _ => .ok false
  swapEnvAt := fun _ => ⟨false, 500, 10, false, false, 77, ⟨0, 2, false, 88⟩⟩
  orderPlanAt := fun _ => .ok ⟨true, 41⟩
  mintScan := .ok []

/-- C2: the claim (and the spec) require that a settlement in which the swap
succeeded but the transfer did not must fail without invoking `orderPlan`.  The
code drops `transferResult.success`: at `C2world` the swap transaction succeeds
and the transfer is declined by the insufficiency guard (no transfer action is
submitted, `transferTxHash` is `undefined`), yet `performSwapForPlan` reports
`success: true`, the settlement run reports success, and `orderPlan` is invoked
once. -/
theorem C2_partial_swap_orders_anyway :
    (performSwapForPlan (C2world.swapEnvAt 0) C2world.planPrice).1 =
      .ok ⟨true, some 77, none⟩ ∧
    (performSwapForPlan (C2world.swapEnvAt 0) C2world.planPrice).2 =
      [ChainAction.fetchNonce, ChainAction.approveTx 10 500, ChainAction.swapTx 11 5 500] ∧
    (ensureSufficientBalance C2world 1).1 = true ∧
    (ensureSufficientBalance C2world 1).2.count SEvent.orderPlanCall = 1 :=
  ⟨rfl, rfl, rfl, rfl⟩

/-- Settlement world whose single plan-balance query always fails. -/
def C3world : SettleWorld where
  getPlanBalance := .error .balanceError
  externalTokenAddress := some 1
  ourTokenAddress := some 2
  planPrice := 5
  agentWallet := some 3
  isBalanceSufficientAt := fun _ => .ok true
  swapEnvAt := fun _ => ⟨false, 500, 10, false, false, 77, ⟨9, 2, false, 88⟩⟩
  orderPlanAt := fun _ => .ok ⟨true, 41⟩
  mintScan := .ok []

/-- C3, counterexample.  Claim: each externally-fallible settlement sub-step —
including the plan balance query and the mint-event scan — is individually
executed under RetryPolicy with 2 retries (3 attempts).  In the code
`getAndCheckBalance` calls `payments.getPlanBalance` once inside `try`/`catch`
with no `retryOperation` wrapper: with an always-failing balance oracle the
settlement performs exactly 1 balance query, not 3. -/
theorem C3_counterexample :
    (ensureSufficientBalance C3world 1).2.count SEvent.getPlanBalanceCall = 1 ∧
    (ensureSufficientBalance C3world 1).2.count SEvent.getPlanBalanceCall ≠ 3 :=
  ⟨rfl, by decide⟩

/-- C3, amended: of the externally-fallible settlement sub-steps, the
target-token balance check, the swap unit (approve, swap and transfer retried
as one operation) and the credit order are each individually wrapped by
`retryOperation` with 2 retries (3 attempts) and a notification callback, while
the plan balance query and the mint-event scan are executed exactly once with
no retry; failure (exhausted retries for the wrapped sub-steps, a single
failure for the unwrapped ones) aborts the settlement as failed and writes the
enclosing step `Failed`. -/
theorem C3_retry_wrapping :
    (∀ (w : SettleWorld) (req : Nat) (er : LedgerErr), w.getPlanBalance = .error er →
      ensureSufficientBalance w req =
        (false, [SEvent.getPlanBalanceCall, SEvent.stepFailedWrite])) ∧
    (∀ (w : SettleWorld) (req : Nat) (b : BalanceResult) (es : Nat → LedgerErr) (ea oa aw : Nat),
      w.getPlanBalance = .ok b → b.balance < req → b.isOwner = false →
      w.externalTokenAddress = some ea → w.ourTokenAddress = some oa → ea ≠ oa →
      w.agentWallet = some aw →
      (∀ k, k ≤ 2 → w.isBalanceSufficientAt k = .error (es k)) →
      ensureSufficientBalance w req =
        (false, SEvent.getPlanBalanceCall ::
          (List.replicate 3 SEvent.isBalanceSufficientCall ++ [SEvent.stepFailedWrite]))) ∧
    (∀ (w : SettleWorld) (req : Nat) (b : BalanceResult) (ee : Nat → ChainErr) (ea oa aw : Nat),
      w.getPlanBalance = .ok b → b.balance < req → b.isOwner = false →
      w.externalTokenAddress = some ea → w.ourTokenAddress = some oa → ea ≠ oa →
      w.agentWallet = some aw →
      w.isBalanceSufficientAt 0 = .ok false →
      (∀ k, k ≤ 2 → (performSwapForPlan (w.swapEnvAt k) w.planPrice).1 = .error (ee k)) →
      ensureSufficientBalance w req =
        (false, SEvent.getPlanBalanceCall :: SEvent.isBalanceSufficientCall ::
          (List.replicate 3 SEvent.swapCall ++ [SEvent.stepFailedWrite]))) ∧
    (∀ (w : SettleWorld) (req : Nat) (b : BalanceResult) (eo : Nat → LedgerErr),
      w.getPlanBalance = .ok b → b.balance < req → b.isOwner = false →
      tokensDiffer w = false →
      (∀ k, k ≤ 2 → w.orderPlanAt k = .error (eo k)) →
      ensureSufficientBalance w req =
        (false, SEvent.getPlanBalanceCall ::
          (List.replicate 3 SEvent.orderPlanCall ++ [SEvent.stepFailedWrite]))) ∧
    (∀ (w : SettleWorld) (req : Nat) (b : BalanceResult) (ag : Nat),
      w.getPlanBalance = .ok b → b.balance < req → b.isOwner = false →
      tokensDiffer w = false →
      w.orderPlanAt 0 = .ok ⟨true, ag⟩ →
      w.mintScan = .error .scanError →
      ensureSufficientBalance w req =
        (false, [SEvent.getPlanBalanceCall, SEvent.orderPlanCall, SEvent.mintScanCall,
          SEvent.stepFailedWrite])) := by
  refine ⟨?_, ?_, ?_, ?_, ?_⟩
  · intro w req er h
    simp [ensureSufficientBalance, getAndCheckBalance, h]
  · intro w req b es ea oa aw hb hlt howner hext hour hne haw hsuff
    have hr := retryOperation_all_fail w.isBalanceSufficientAt es 2
      (fun k hk => hsuff k hk)
    simp [ensureSufficientBalance, getAndCheckBalance, hb, hlt, howner,
      handleInsufficientBalance, tokensDiffer, hext, hour, hne,
      handleTokenSwapIfNeeded, haw, hr, retryAttempts]
  · intro w req b ee ea oa aw hb hlt howner hext hour hne haw hsuff0 hswap
    have hr := retryOperation_first_ok w.isBalanceSufficientAt 2 false hsuff0
    have hsw := retryOperation_all_fail
      (fun k => (performSwapForPlan (w.swapEnvAt k) w.planPrice).1) ee 2
      (fun k hk => hswap k hk)
    simp [ensureSufficientBalance, getAndCheckBalance, hb, hlt, howner,
      handleInsufficientBalance, tokensDiffer, hext, hour, hne,
      handleTokenSwapIfNeeded, haw, hr, hsw, retryAttempts]
  · intro w req b eo hb hlt howner htd hord
    have hr := retryOperation_all_fail w.orderPlanAt eo 2 (fun k hk => hord k hk)
    simp [ensureSufficientBalance, getAndCheckBalance, hb, hlt, howner,
      handleInsufficientBalance, htd, orderCreditsForPlan, hr, retryAttempts]
  · intro w req b ag hb hlt howner htd hord hscan
    have hr := retryOperation_first_ok w.orderPlanAt 2 ⟨true, ag⟩ hord
    simp [ensureSufficientBalance, getAndCheckBalance, hb, hlt, howner,
      handleInsufficientBalance, htd, orderCreditsForPlan, hr, hscan, retryAttempts]

/-! ## Task dispatch with validation: `src/steps/stepHandlers.ts`
(`executeTaskWithValidation`, `createVideoTaskForPrompt`) -/

/-- Errors surfacing through the task-dispatch promise. -/
inductive TaskErr
  | taskFailed (taskId : Nat)
  | createTaskError
  | validationError
deriving DecidableEq, Repr

/-- Asynchronous completion signals delivered to the `createTask` callback,
parsed from `cbData`: a terminal-success report, a terminal-failure report, or
any other status (ignored by the callback). -/
inductive TaskSignal
  | completed (taskId : Nat)
  | failed (taskId : Nat)
  | other
deriving DecidableEq, Repr

/-- A JavaScript promise cell: settles at most once; `resolve`/`reject` after
settlement are no-ops. -/
inductive PromiseState (ε α : Type)
  | unsettled
  | resolved (a : α)
  | rejected (e : ε)
deriving DecidableEq, Repr

/-- `resolve` on a promise cell: only an unsettled promise takes the value. -/
def settleResolve (p : PromiseState ε α) (a : α) : PromiseState ε α :=
  match p with
  | .unsettled => .resolved a
  | _ => p

/-- `reject` on a promise cell: only an unsettled promise takes the error. -/
def settleReject (p : PromiseState ε α) (e : ε) : PromiseState ε α :=
  match p with
  | .unsettled => .rejected e
  | _ => p

/-- State of one dispatch: the returned promise and the number of validator
invocations performed so far. -/
structure TaskRunState (α : Type) where
  promise : PromiseState TaskErr α
  validatorCalls : Nat
deriving DecidableEq, Repr

/-- One invocation of the `createTask` callback, as written in
`executeTaskWithValidation` (and identically in `createVideoTaskForPrompt`):
on a `Completed` status the validator runs — with no guard against the promise
being already settled — and its artifacts `resolve` the promise (a thrown
validation error `reject`s it); on a `Failed` status the promise is `reject`ed
with an error naming the task identifier; any other status is ignored.
`validator n` is the outcome of the `n`-th validator invocation. -/
def processSignal (validator : Nat → Except TaskErr α) (st : TaskRunState α)
    (s : TaskSignal) : TaskRunState α :=
  match s with
  | .completed _ =>
    match validator st.validatorCalls with
    | .ok artifacts => ⟨settleResolve st.promise artifacts, st.validatorCalls + 1⟩
    | .error e => ⟨settleReject st.promise e, st.validatorCalls + 1⟩
  | .failed tid => ⟨settleReject st.promise (.taskFailed tid), st.validatorCalls⟩
  | .other => st

/-- Embedding of `executeTaskWithValidation`: dispatch the task; if the
acknowledgement status is not `201` the promise is rejected immediately,
without waiting for any signal; then the callback processes each delivered
signal in order. -/
def executeTaskWithValidation (ackStatus : Nat) (validator : Nat → Except TaskErr α)
    (signals : List TaskSignal) : TaskRunState α :=
  let st0 : TaskRunState α := ⟨.unsettled, 0⟩
  let st1 : TaskRunState α :=
    if ackStatus ≠ 201 then ⟨settleReject st0.promise .createTaskError, 0⟩ else st0
  signals.foldl (processSignal validator) st1

/-- Embedding of `createVideoTaskForPrompt`: modulo the construction of the
task payload (setting selection, character filtering) it wires the identical
promise/callback protocol as `executeTaskWithValidation` — the same unguarded
resolve-on-`Completed` with validator call, reject-on-`Failed` naming the task
id, and reject on a non-`201` acknowledgement. -/
def createVideoTaskForPrompt (ackStatus : Nat) (validator : Nat → Except TaskErr α)
    (signals : List TaskSignal) : TaskRunState α :=
  executeTaskWithValidation ackStatus validator signals

/-! ## Fan-out stages: `handleCallVideoGenerator`, `handleCallImagesGenerator` -/

/-- A character or setting subject of the images stage. -/
structure Subject where
  name : Nat
  imageUrl : Option Nat
deriving DecidableEq, Repr

/-- The subject type tag carried by a validated image-generation result. -/
inductive SubjectType
  | character
  | setting
deriving DecidableEq, Repr

/-- A validated image-generation result. -/
structure ImageResult where
  subjectType : SubjectType
  id : Nat
  url : Nat
deriving DecidableEq, Repr

/-- Step-handler level events: settlement events, ledger step writes. -/
inductive HEvent
  | settle (e : SEvent)
  | stepCompletedVideos (videos : List Nat) (failedCount : Nat) (cost : Nat)
  | stepFailedVideos (failedCount : Nat)
  | stepCompletedImages (characters : List Subject) (settings : List Subject)
  | stepFailedWrite
deriving DecidableEq, Repr

/-- World of one `handleCallVideoGenerator` run: the settlement oracles, the
number of prompts and, per prompt index and per attempt, the outcome of
`createVideoTaskForPrompt` (a validated video URL or a thrown error). -/
structure VideoWorld where
  settle : SettleWorld
  promptCount : Nat
  videoOutcomeAt : Nat → Nat → Except TaskErr Nat

/-- The slot produced for prompt `i`:
`retryOperation(() => createVideoTaskForPrompt(...), 2, cb)` with the
surrounding `catch` that maps an exhausted-retries error to `null`. -/
def videoSubResult (w : VideoWorld) (i : Nat) : Option Nat :=
  (retryOperation (w.videoOutcomeAt i) 2).result.toOption

/-- Embedding of `handleCallVideoGenerator`: ensure balance for
`prompts.length` credits (returning early without any write if that fails);
run the per-prompt tasks, each under its own `retryOperation`/`catch`
(`Promise.all` over already-caught promises — it never rejects); filter out the
`null` slots preserving order; if more than 3 prompts failed, write the step
`Failed` naming the failure count, otherwise write it `Completed` with the
successful videos, the failure count and cost `5 * successes`. -/
def handleCallVideoGenerator (w : VideoWorld) : List HEvent :=
  let bal := ensureSufficientBalance w.settle w.promptCount
  let evs := bal.2.map HEvent.settle
  if bal.1 = false then evs
  else
    let results := (List.range w.promptCount).map (videoSubResult w)
    let successfulVideos := results.filterMap id
    let failedCount := results.length - successfulVideos.length
    if 3 < failedCount then
      evs ++ [HEvent.stepFailedVideos failedCount]
    else
      evs ++ [HEvent.stepCompletedVideos successfulVideos failedCount
        (successfulVideos.length * 5)]

/-- World of one `handleCallImagesGenerator` run: settlement oracles, the
character and setting subjects and, per subject index and attempt, the outcome
of `createImageTask`. -/
structure ImagesWorld where
  settle : SettleWorld
  characters : List Subject
  settings : List Subject
  charOutcomeAt : Nat → Nat → Except TaskErr ImageResult
  settingOutcomeAt : Nat → Nat → Except TaskErr ImageResult

/-- `Promise.all` over a list of fallible computations that have all completed:
the first error (in slot order) rejects the aggregate, otherwise all results
are collected in order. -/
def sequenceExcept : List (Except ε α) → Except ε (List α)
  | [] => .ok []
  | x :: xs =>
    match x with
    | .error e => .error e
    | .ok a =>
      match sequenceExcept xs with
      | .error e => .error e
      | .ok rest => .ok (a :: rest)

/-- `characters.find(c => c.name === result.id)` followed by
`char.imageUrl = result.url`: set the URL on the first matching subject. -/
def setFirstUrl : List Subject → Nat → Nat → List Subject
  | [], _, _ => []
  | s :: rest, target, url =>
    if s.name = target then { s with imageUrl := some url } :: rest
    else s :: setFirstUrl rest target url

/-- One iteration of the `results.forEach` merge of
`handleCallImagesGenerator`. -/
def applyImageResult (chars setts : List Subject) (r : ImageResult) :
    List Subject × List Subject :=
  match r.subjectType with
  | .character => (setFirstUrl chars r.id r.url, setts)
  | .setting => (chars, setFirstUrl setts r.id r.url)

/-- Embedding of `handleCallImagesGenerator`: ensure balance for
`characters.length + settings.length` credits; start one
`retryOperation`-wrapped `createImageTask` per character and per setting and
await them through `Promise.all` with no per-item `catch` — a sub-task that
exhausts its retries rejects the aggregate and the `catch` writes the step
`Failed`; on success, merge the URLs into the subjects and write the step
`Completed`. -/
def handleCallImagesGenerator (w : ImagesWorld) : List HEvent :=
  let bal := ensureSufficientBalance w.settle (w.characters.length + w.settings.length)
  let evs := bal.2.map HEvent.settle
  if bal.1 = false then evs
  else
    let charResults := (List.range w.characters.length).map
      (fun i => (retryOperation (w.charOutcomeAt i) 2).result)
    let settingResults := (List.range w.settings.length).map
      (fun i => (retryOperation (w.settingOutcomeAt i) 2).result)
    match sequenceExcept (charResults ++ settingResults) with
    | .error _ => evs ++ [HEvent.stepFailedWrite]
    | .ok results =>
      let merged := results.foldl (fun p r => applyImageResult p.1 p.2 r)
        (w.characters, w.settings)
      evs ++ [HEvent.stepCompletedImages merged.1 merged.2]

/-! ## Init stage: `handleInitStep` -/

/-- A successor step record as passed to `createSteps`. -/
structure StepRec where
  step_id : Nat
  task_id : Nat
  predecessor : Nat
  name : String
  is_last : Bool
deriving DecidableEq, Repr

/-- The fields of the incoming init step that the handler reads. -/
structure InitStep where
  did : Nat
  step_id : Nat
  task_id : Nat
  input_query : Nat
deriving DecidableEq, Repr

/-- Ledger writes performed by `handleInitStep`. -/
inductive LedgerWrite
  | createSteps (parentDid : Nat) (taskId : Nat) (steps : List StepRec)
  | updateStepCompleted (did : Nat) (output : Nat)
deriving DecidableEq, Repr

/-- Embedding of `handleInitStep`: generate five fresh step ids (`idGen k` is
the `k`-th `generateStepId()` call), build the five successor records — each
carrying its predecessor's step id, and only `compileVideo` with
`is_last: true` — create them in a single `createSteps` batch, then mark the
init step `Completed` with the original `input_query` as output. -/
def handleInitStep (idGen : Nat → Nat) (step : InitStep) : List LedgerWrite :=
  let songStepId := idGen 0
  let scriptStepId := idGen 1
  let imagesStepId := idGen 2
  let videoStepId := idGen 3
  let compileStepId := idGen 4
  let steps : List StepRec :=
    [⟨songStepId, step.task_id, step.step_id, "callSongGenerator", false⟩,
      ⟨scriptStepId, step.task_id, songStepId, "generateMusicScript", false⟩,
      ⟨imagesStepId, step.task_id, scriptStepId, "callImagesGenerator", false⟩,
      ⟨videoStepId, step.task_id, imagesStepId, "callVideoGenerator", false⟩,
      ⟨compileStepId, step.task_id, videoStepId, "compileVideo", true⟩]
  [LedgerWrite.createSteps step.did step.task_id steps,
    LedgerWrite.updateStepCompleted step.did step.input_query]

theorem settleResolve_settled (p : PromiseState ε α) (a : α) (h : p ≠ .unsettled) :
    settleResolve p a = p := by
  cases p <;> simp_all [settleResolve]

theorem settleReject_settled (p : PromiseState ε α) (e : ε) (h : p ≠ .unsettled) :
    settleReject p e = p := by
  cases p <;> simp_all [settleReject]

theorem processSignal_settled (v : Nat → Except TaskErr α) (st : TaskRunState α)
    (s : TaskSignal) (h : st.promise ≠ .unsettled) :
    (processSignal v st s).promise = st.promise := by
  cases s with
  | completed tid =>
    cases hv : v st.validatorCalls <;>
      simp [processSignal, hv, settleResolve_settled _ _ h, settleReject_settled _ _ h]
  | failed tid => simp [processSignal, settleReject_settled _ _ h]
  | other => rfl

theorem foldl_processSignal_settled (v : Nat → Except TaskErr α) :
    ∀ (signals : List TaskSignal) (st : TaskRunState α), st.promise ≠ .unsettled →
      (signals.foldl (processSignal v) st).promise = st.promise := by
  intro signals
  induction signals with
  | nil => intro st _; rfl
  | cons s rest ih =>
    intro st h
    rw [List.foldl_cons,
      ih _ (by rw [processSignal_settled v st s h]; exact h),
      processSignal_settled v st s h]

theorem foldl_processSignal_completed_count (v : Nat → Except TaskErr α) (tid : Nat) :
    ∀ (n : Nat) (st : TaskRunState α),
      ((List.replicate n (TaskSignal.completed tid)).foldl
          (processSignal v) st).validatorCalls = st.validatorCalls + n := by
  intro n
  induction n with
  | zero => intro st; simp
  | succ m ih =>
    intro st
    rw [List.replicate_succ, List.foldl_cons, ih]
    have hone : (processSignal v st (.completed tid)).validatorCalls
        = st.validatorCalls + 1 := by
      cases hv : v st.validatorCalls <;> simp [processSignal, hv]
    omega

/-- C6, counterexample.  Claim: the validator is not invoked more than once
even if duplicate completion signals reporting terminal success arrive for the
same task.  The `createTask` callback has no guard against the promise being
already settled, so a duplicate `Completed` signal re-runs the validator: with
two duplicate success signals the validator is invoked twice. -/
theorem C6_counterexample :
    (executeTaskWithValidation 201 (fun _ => (Except.ok 5 : Except TaskErr Nat))
      [TaskSignal.completed 9, TaskSignal.completed 9]).validatorCalls = 2 ∧
    ¬ ((executeTaskWithValidation 201 (fun _ => (Except.ok 5 : Except TaskErr Nat))
      [TaskSignal.completed 9, TaskSignal.completed 9]).validatorCalls ≤ 1) :=
  ⟨rfl, by decide⟩

/-- C6, amended: the returned future settles at most once per invocation — a
signal arriving after settlement never changes the promise; a non-`201`
dispatch acknowledgement rejects it immediately and no later signal can
override that; a terminal-failure signal on the pending promise rejects it with
an error naming the task identifier — but the caller-supplied validator is NOT
protected against duplicates: it runs once per `Completed` signal received, so
duplicate success signals re-invoke it (their results are discarded by the
already-settled promise).  `createVideoTaskForPrompt` implements the identical
protocol. -/
theorem C6_dispatch_settlement (α : Type) :
    (∀ (v : Nat → Except TaskErr α) (st : TaskRunState α) (s : TaskSignal),
      st.promise ≠ .unsettled → (processSignal v st s).promise = st.promise) ∧
    (∀ (v : Nat → Except TaskErr α) (ack : Nat) (signals : List TaskSignal),
      ack ≠ 201 →
      (executeTaskWithValidation ack v signals).promise = .rejected .createTaskError) ∧
    (∀ (v : Nat → Except TaskErr α) (st : TaskRunState α) (tid : Nat),
      st.promise = .unsettled →
      (processSignal v st (.failed tid)).promise = .rejected (.taskFailed tid)) ∧
    (∀ (v : Nat → Except TaskErr α) (st : TaskRunState α) (tid : Nat) (a : α),
      st.promise = .unsettled → v st.validatorCalls = .ok a →
      (processSignal v st (.completed tid)).promise = .resolved a) ∧
    (∀ (v : Nat → Except TaskErr α) (n tid : Nat),
      (executeTaskWithValidation 201 v
        (List.replicate n (TaskSignal.completed tid))).validatorCalls = n) ∧
    (∀ (ack : Nat) (v : Nat → Except TaskErr α) (signals : List TaskSignal),
      createVideoTaskForPrompt ack v signals = executeTaskWithValidation ack v signals) := by
  refine ⟨processSignal_settled, ?_, ?_, ?_, ?_, fun _ _ _ => rfl⟩
  · intro v ack signals hack
    unfold executeTaskWithValidation
    simp only [hack, if_true, ne_eq, not_false_iff]
    rw [foldl_processSignal_settled v signals _ (by simp [settleReject])]
    simp [settleReject]
  · intro v st tid h
    simp [processSignal, settleReject, h]
  · intro v st tid a h hv
    simp [processSignal, hv, settleResolve, h]
  · intro v n tid
    unfold executeTaskWithValidation
    simp [foldl_processSignal_completed_count]

/-- C6, witness: concrete instances of each amended conjunct — a duplicate
success signal leaves a resolved promise unchanged, a `400` acknowledgement
rejects regardless of a later success signal, a failure signal names task 9,
a success signal resolves the pending promise, and two duplicate success
signals yield two validator invocations. -/
theorem C6_dispatch_settlement_witness :
    (processSignal (fun _ => (Except.ok 5 : Except TaskErr Nat))
        ⟨.resolved 5, 1⟩ (.completed 9)).promise = .resolved 5 ∧
    (executeTaskWithValidation 400 (fun _ => (Except.ok 5 : Except TaskErr Nat))
        [TaskSignal.completed 9]).promise = .rejected .createTaskError ∧
    (processSignal (fun _ => (Except.ok 5 : Except TaskErr Nat))
        ⟨.unsettled, 0⟩ (.failed 9)).promise = .rejected (.taskFailed 9) ∧
    (processSignal (fun _ => (Except.ok 5 : Except TaskErr Nat))
        ⟨.unsettled, 0⟩ (.completed 9)).promise = .resolved 5 ∧
    (executeTaskWithValidation 201 (fun _ => (Except.ok 5 : Except TaskErr Nat))
        (List.replicate 2 (TaskSignal.completed 9))).validatorCalls = 2 := by
  refine ⟨(C6_dispatch_settlement Nat).1 _ _ _ (by simp),
    (C6_dispatch_settlement Nat).2.1 _ 400 _ (by decide),
    (C6_dispatch_settlement Nat).2.2.1 _ _ 9 rfl,
    (C6_dispatch_settlement Nat).2.2.2.1 _ _ 9 5 rfl rfl,
    (C6_dispatch_settlement Nat).2.2.2.2.1 _ 2 9⟩

theorem length_filterMap_id_add_length_filter_isNone (l : List (Option β)) :
    (l.filterMap id).length + (l.filter Option.isNone).length = l.length := by
  induction l with
  | nil => rfl
  | cons a l ih =>
    cases a <;> simp [List.filterMap_cons, List.filter_cons] <;> omega

/-- The `failedCount` computed by the video handler:
`results.length - successfulVideos.length`. -/
def videoFailureCount (w : VideoWorld) : Nat :=
  ((List.range w.promptCount).map (videoSubResult w)).length -
    (((List.range w.promptCount).map (videoSubResult w)).filterMap id).length

/-- C4: for a video fan-out over `N` prompts of which exactly `K` sub-tasks
fail after exhausting their retries — `K` being the handler's
`failedCount`, which (last conjunct) counts exactly the absent slots — the
step is written `Completed` when `K ≤ 3`, carrying exactly the `N - K`
successful results in original input index order together with the failure
count, and written `Failed` naming the failure count, with no partial output,
when `K > 3`. -/
theorem C4_video_fanout_threshold (w : VideoWorld)
    (hbal : (ensureSufficientBalance w.settle w.promptCount).1 = true) :
    (videoFailureCount w ≤ 3 →
      handleCallVideoGenerator w =
        (ensureSufficientBalance w.settle w.promptCount).2.map HEvent.settle ++
          [HEvent.stepCompletedVideos
            ((List.range w.promptCount).filterMap (videoSubResult w))
            (videoFailureCount w)
            (((List.range w.promptCount).filterMap (videoSubResult w)).length * 5)]) ∧
    (3 < videoFailureCount w →
      handleCallVideoGenerator w =
        (ensureSufficientBalance w.settle w.promptCount).2.map HEvent.settle ++
          [HEvent.stepFailedVideos (videoFailureCount w)]) ∧
    ((List.range w.promptCount).filterMap (videoSubResult w)).length
        + videoFailureCount w = w.promptCount ∧
    videoFailureCount w =
      (((List.range w.promptCount).map (videoSubResult w)).filter Option.isNone).length := by
  have hmap : ((List.range w.promptCount).map (videoSubResult w)).filterMap id
      = (List.range w.promptCount).filterMap (videoSubResult w) := by
    simp [List.filterMap_map]
  have hle := List.length_filterMap_le id ((List.range w.promptCount).map (videoSubResult w))
  have hcnt := length_filterMap_id_add_length_filter_isNone
    ((List.range w.promptCount).map (videoSubResult w))
  refine ⟨?_, ?_, ?_, ?_⟩
  · intro hK
    unfold videoFailureCount at hK
    unfold handleCallVideoGenerator
    simp only [hbal, Bool.true_eq_false, if_false]
    rw [if_neg (by omega)]
    unfold videoFailureCount
    simp [hmap]
  · intro hK
    unfold videoFailureCount at hK
    unfold handleCallVideoGenerator
    simp only [hbal, Bool.true_eq_false, if_false]
    rw [if_pos (by omega)]
    unfold videoFailureCount
    rfl
  · unfold videoFailureCount
    rw [← hmap]
    simp only [List.length_map, List.length_range] at hle ⊢
    omega
  · unfold videoFailureCount
    omega

/-- Settlement world with an amply funded plan: the balance check takes the
fast path. -/
def richWorld : SettleWorld where
  getPlanBalance := .ok ⟨100, false⟩
  externalTokenAddress := some 1
  ourTokenAddress := some 2
  planPrice := 5
  agentWallet := some 3
  isBalanceSufficientAt := fun _ => .ok true
  swapEnvAt := fun _ => ⟨false, 500, 10, false, false, 77, ⟨9, 2, false, 88⟩⟩
  orderPlanAt := fun _ => .ok ⟨true, 41⟩
  mintScan := .ok []

/-- Video fan-out world: four prompts, prompt 1 failing on every attempt. -/
def C4videoWorld : VideoWorld where
  settle := richWorld
  promptCount := 4
  videoOutcomeAt := fun i _ => if i = 1 then .error .validationError else .ok (10 + i)

/-- C4, witness: one of four sub-tasks fails (K = 1 ≤ 3); the step completes
with the three surviving videos in input order, failure count 1 and cost 15. -/
theorem C4_video_fanout_threshold_witness :
    (ensureSufficientBalance C4videoWorld.settle C4videoWorld.promptCount).1 = true ∧
    videoFailureCount C4videoWorld ≤ 3 ∧
    handleCallVideoGenerator C4videoWorld =
      [HEvent.settle SEvent.getPlanBalanceCall,
        HEvent.stepCompletedVideos [10, 12, 13] 1 15] := by
  refine ⟨rfl, by decide, ?_⟩
  exact (C4_video_fanout_threshold C4videoWorld rfl).1 (by decide)

/-- Images fan-out world: two characters (the first failing every attempt, the
second succeeding), no settings. -/
def C5imagesWorld : ImagesWorld where
  settle := richWorld
  characters := [⟨0, none⟩, ⟨1, none⟩]
  settings := []
  charOutcomeAt := fun i _ =>
    if i = 0 then .error .validationError else .ok ⟨.character, 1, 21⟩
  settingOutcomeAt := fun _ _ => .error .validationError

/-- C5, counterexample.  Claim: in every fan-out stage — the images and the
video handlers — a sub-task that exhausts its retries yields an absent slot
rather than propagating its error and aborting.  The images handler awaits its
sub-tasks through a bare `Promise.all` with no per-item `catch`: at
`C5imagesWorld` one of two sub-tasks exhausts its retries while the other
succeeds, and the stage writes `Failed` with no aggregated result instead of
keeping the successful slot. -/
theorem C5_counterexample :
    (retryOperation (C5imagesWorld.charOutcomeAt 0) 2).result =
      .error (some .validationError) ∧
    (retryOperation (C5imagesWorld.charOutcomeAt 1) 2).result = .ok ⟨.character, 1, 21⟩ ∧
    handleCallImagesGenerator C5imagesWorld =
      [HEvent.settle SEvent.getPlanBalanceCall, HEvent.stepFailedWrite] :=
  ⟨rfl, rfl, rfl⟩

/-- C5, amended: the soft-failure (absent slot) policy holds only for the
video-generation handler: there a sub-task that exhausts its retries yields an
absent slot (first conjunct) and the handler always aggregates all slots into
exactly one terminal write, preserving the non-failed results in input order
(second conjunct).  The images-generation handler instead awaits its
`retryOperation`-wrapped sub-tasks through `Promise.all` with no per-item
`catch`: a sub-task that exhausts its retries propagates its error and the
stage is written `Failed` with no aggregated output (third conjunct, stated for
a failing first character sub-task). -/
theorem C5_fanout_soft_failure_policy :
    (∀ (w : VideoWorld) (i : Nat) (e : Nat → TaskErr),
      (∀ k, k ≤ 2 → w.videoOutcomeAt i k = .error (e k)) →
      videoSubResult w i = none) ∧
    (∀ (w : VideoWorld),
      (ensureSufficientBalance w.settle w.promptCount).1 = true →
      handleCallVideoGenerator w =
        (ensureSufficientBalance w.settle w.promptCount).2.map HEvent.settle ++
          [if 3 < videoFailureCount w then
            HEvent.stepFailedVideos (videoFailureCount w)
          else
            HEvent.stepCompletedVideos
              ((List.range w.promptCount).filterMap (videoSubResult w))
              (videoFailureCount w)
              (((List.range w.promptCount).filterMap (videoSubResult w)).length * 5)]) ∧
    (∀ (w : ImagesWorld) (er : TaskErr) (m : Nat),
      (ensureSufficientBalance w.settle (w.characters.length + w.settings.length)).1 = true →
      w.characters.length = m + 1 →
      (retryOperation (w.charOutcomeAt 0) 2).result = .error (some er) →
      handleCallImagesGenerator w =
        (ensureSufficientBalance w.settle (w.characters.length + w.settings.length)).2.map
          HEvent.settle ++ [HEvent.stepFailedWrite]) := by
  refine ⟨?_, ?_, ?_⟩
  · intro w i e he
    unfold videoSubResult
    rw [retryOperation_all_fail (w.videoOutcomeAt i) e 2 he]
    rfl
  · intro w hbal
    have hmap : ((List.range w.promptCount).map (videoSubResult w)).filterMap id
        = (List.range w.promptCount).filterMap (videoSubResult w) := by
      simp [List.filterMap_map]
    unfold handleCallVideoGenerator
    simp only [hbal, Bool.true_eq_false, if_false]
    by_cases h3 : 3 < videoFailureCount w
    · rw [if_pos (by unfold videoFailureCount at h3; omega), if_pos h3]
      unfold videoFailureCount
      rfl
    · rw [if_neg (by unfold videoFailureCount at h3; omega), if_neg h3]
      unfold videoFailureCount
      simp [hmap]
  · intro w er m hbal hm herr
    unfold handleCallImagesGenerator
    simp only [hbal, Bool.true_eq_false, if_false]
    rw [hm, List.range_succ_eq_map]
    simp only [List.map_cons, herr, sequenceExcept]

/-- Video fan-out world for the C5 witness: two prompts, the first failing on
every attempt. -/
def C5videoWorld : VideoWorld where
  settle := richWorld
  promptCount := 2
  videoOutcomeAt := fun i _ => if i = 0 then .error .validationError else .ok (10 + i)

/-- C5, witness: a video sub-task exhausting retries yields an absent slot and
the video stage still completes with the surviving result, while the images
stage with a failing sub-task writes `Failed`. -/
theorem C5_fanout_soft_failure_policy_witness :
    videoSubResult C5videoWorld 0 = none ∧
    handleCallVideoGenerator C5videoWorld =
      [HEvent.settle SEvent.getPlanBalanceCall, HEvent.stepCompletedVideos [11] 1 5] ∧
    handleCallImagesGenerator C5imagesWorld =
      [HEvent.settle SEvent.getPlanBalanceCall, HEvent.stepFailedWrite] := by
  refine ⟨?_, ?_, ?_⟩
  · exact C5_fanout_soft_failure_policy.1 C5videoWorld 0 (fun _ => .validationError)
      (fun _ _ => rfl)
  · exact C5_fanout_soft_failure_policy.2.1 C5videoWorld rfl
  · exact C5_fanout_soft_failure_policy.2.2 C5imagesWorld .validationError 1 rfl rfl rfl

/-- C9: the init handler creates the full chain of five successor steps in a
single `createSteps` batch call before marking the init step itself
`Completed`; the successor names are the five pipeline stages in order, each
successor carries its predecessor's step identifier (the init step's for the
first, the previous successor's for each later one), only the final
`compileVideo` step carries the terminal flag, and all five belong to the init
step's task. -/
theorem C9_init_creates_full_chain (idGen : Nat → Nat) (step : InitStep) :
    ∃ steps : List StepRec,
      handleInitStep idGen step =
        [LedgerWrite.createSteps step.did step.task_id steps,
          LedgerWrite.updateStepCompleted step.did step.input_query] ∧
      steps.map StepRec.name =
        ["callSongGenerator", "generateMusicScript", "callImagesGenerator",
          "callVideoGenerator", "compileVideo"] ∧
      steps.map StepRec.predecessor = step.step_id :: (steps.take 4).map StepRec.step_id ∧
      steps.map StepRec.is_last = [false, false, false, false, true] ∧
      steps.map StepRec.task_id = List.replicate 5 step.task_id :=
  ⟨_, rfl, rfl, rfl, rfl, rfl⟩

/-! ## PlanDDOHelper: `src/payments/PlanDDOHelper.ts` -/

/-- The optional descriptor fields of a plan DDO that the helper accessors
read: `service[2].attributes.additionalInformation.erc20TokenAddress`,
`...additionalInformation.symbol`,
`...additionalInformation.priceHighestDenomination`, `publicKey[0].owner`, and
the `_contractAddress` parameter of the `transferNFT` condition. -/
structure DDO where
  erc20TokenAddress : Option Nat
  symbol : Option Nat
  priceHighestDenomination : Option Nat
  publicKeyOwner : Option Nat
  transferNFTContractAddress : Option Nat
deriving DecidableEq, Repr

/-- Instance state of a `PlanDDOHelper`: the plan DID and the memoized DDO
(`undefined` at construction). -/
structure PlanDDOHelperState where
  planDid : Nat
  ddo : Option DDO
deriving DecidableEq, Repr

/-- Embedding of `loadDDO`: if no DDO is cached, fetch it from the registry
(`payments.getAssetDDO`) and memoize it.  The registry is modelled as a
function of the call index (`registry n` is the DDO returned by the `n`-th
call); the result carries the DDO, the updated instance state and the number
of registry calls performed (0 or 1). -/
def loadDDO (registry : Nat → DDO) (n : Nat) (s : PlanDDOHelperState) :
    DDO × PlanDDOHelperState × Nat :=
  match s.ddo with
  | some d => (d, s, 0)
  | none =>
    let d := registry n
    (d, { s with ddo := some d }, 1)

/-- `getTokenAddress`: load (or reuse) the DDO and project the optional ERC20
token address. -/
def getTokenAddress (registry : Nat → DDO) (n : Nat) (s : PlanDDOHelperState) :
    Option Nat × PlanDDOHelperState × Nat :=
  let (d, s', c) := loadDDO registry n s
  (d.erc20TokenAddress, s', c)

/-- `getTokenName`: load (or reuse) the DDO and project the optional token
symbol. -/
def getTokenName (registry : Nat → DDO) (n : Nat) (s : PlanDDOHelperState) :
    Option Nat × PlanDDOHelperState × Nat :=
  let (d, s', c) := loadDDO registry n s
  (d.symbol, s', c)

/-- `getPlanPrice`: load (or reuse) the DDO and return
`priceHighestDenomination?.toString() || "0"` — the string `"0"` when the
optional price field is missing. -/
def getPlanPrice (registry : Nat → DDO) (n : Nat) (s : PlanDDOHelperState) :
    String × PlanDDOHelperState × Nat :=
  let (d, s', c) := loadDDO registry n s
  ((match d.priceHighestDenomination with
    | some p => toString p
    | none => "0"), s', c)

/-- `getAgentWallet`: load (or reuse) the DDO and project the optional
`publicKey[0].owner`. -/
def getAgentWallet (registry : Nat → DDO) (n : Nat) (s : PlanDDOHelperState) :
    Option Nat × PlanDDOHelperState × Nat :=
  let (d, s', c) := loadDDO registry n s
  (d.publicKeyOwner, s', c)

/-- `get1155ContractAddress`: load (or reuse) the DDO and project the optional
`_contractAddress` parameter of the `transferNFT` condition. -/
def get1155ContractAddress (registry : Nat → DDO) (n : Nat) (s : PlanDDOHelperState) :
    Option Nat × PlanDDOHelperState × Nat :=
  let (d, s', c) := loadDDO registry n s
  (d.transferNFTContractAddress, s', c)

/-- `getTokenId`: derived from the plan DID alone
(`BigInt("0x" + planDid.replace("did:nv:", "")).toString()`); no DDO load, no
registry call. -/
def getTokenId (s : PlanDDOHelperState) : String × PlanDDOHelperState × Nat :=
  (toString s.planDid, s, 0)

/-- `getMintOperator`: a hard-coded operator address; no DDO load. -/
def getMintOperator (s : PlanDDOHelperState) : Option Nat × PlanDDOHelperState × Nat :=
  (some 0xd596661b, s, 0)

/-- `getBurnOperator`: a hard-coded operator address; no DDO load. -/
def getBurnOperator (s : PlanDDOHelperState) : Option Nat × PlanDDOHelperState × Nat :=
  (some 0x5838b551, s, 0)

/-- A DDO with every optional field present except the price. -/
def noPriceDDO : DDO := ⟨some 1, some 2, none, some 3, some 4⟩

/-- A DDO whose price field is present with value 0. -/
def zeroPriceDDO : DDO := ⟨some 1, some 2, some 0, some 3, some 4⟩

/-- C8, counterexample.  Claim: any accessor whose underlying optional
descriptor field is missing returns an absent value, never a partial or
default stand-in.  `getPlanPrice` violates this: on a descriptor whose price
field is missing it returns the default string `"0"` — exactly the value it
also returns for a descriptor whose price is genuinely present and zero, so
the caller cannot distinguish a missing price from a zero price. -/
theorem C8_counterexample :
    noPriceDDO.priceHighestDenomination = none ∧
    (getPlanPrice (fun _ => noPriceDDO) 0 ⟨7, none⟩).1 = "0" ∧
    zeroPriceDDO.priceHighestDenomination = some 0 ∧
    (getPlanPrice (fun _ => zeroPriceDDO) 0 ⟨7, none⟩).1 = "0" :=
  ⟨rfl, rfl, rfl, rfl⟩

/-- C8, amended: every `PlanDDOHelper` accessor loads the plan descriptor at
most once per instance — the first access performs exactly one registry call
and memoizes the DDO, and every access on an instance holding a cached DDO
performs no registry call, leaves the state unchanged and returns the
projection of the cached copy (so repeated calls to the same accessor return
the same value).  The accessors over optional descriptor fields (token
address, token symbol, agent wallet, credit-contract address) return the
optional field itself — `none` when it is missing — EXCEPT the unit-price
accessor, which substitutes the default string `"0"` for a missing price; the
token id is derived from the plan DID with no registry access, and the
mint/burn operator accessors return fixed constants. -/
theorem C8_memoized_accessors :
    (∀ (registry : Nat → DDO) (n : Nat) (s : PlanDDOHelperState) (d : DDO),
      s.ddo = some d → loadDDO registry n s = (d, s, 0)) ∧
    (∀ (registry : Nat → DDO) (n did : Nat),
      loadDDO registry n ⟨did, none⟩ = (registry n, ⟨did, some (registry n)⟩, 1)) ∧
    (∀ (registry : Nat → DDO) (n : Nat) (s : PlanDDOHelperState) (d : DDO),
      s.ddo = some d →
      getTokenAddress registry n s = (d.erc20TokenAddress, s, 0) ∧
      getTokenName registry n s = (d.symbol, s, 0) ∧
      getAgentWallet registry n s = (d.publicKeyOwner, s, 0) ∧
      get1155ContractAddress registry n s = (d.transferNFTContractAddress, s, 0) ∧
      (getPlanPrice registry n s).2 = (s, 0) ∧
      (d.priceHighestDenomination = none → (getPlanPrice registry n s).1 = "0") ∧
      (∀ p, d.priceHighestDenomination = some p →
        (getPlanPrice registry n s).1 = toString p)) ∧
    (∀ (registry : Nat → DDO) (n did : Nat),
      getTokenAddress registry n ⟨did, none⟩ =
        ((registry n).erc20TokenAddress, ⟨did, some (registry n)⟩, 1) ∧
      getTokenName registry n ⟨did, none⟩ =
        ((registry n).symbol, ⟨did, some (registry n)⟩, 1) ∧
      getAgentWallet registry n ⟨did, none⟩ =
        ((registry n).publicKeyOwner, ⟨did, some (registry n)⟩, 1) ∧
      get1155ContractAddress registry n ⟨did, none⟩ =
        ((registry n).transferNFTContractAddress, ⟨did, some (registry n)⟩, 1) ∧
      (getPlanPrice registry n ⟨did, none⟩).2 = (⟨did, some (registry n)⟩, 1)) ∧
    (∀ (s : PlanDDOHelperState),
      getTokenId s = (toString s.planDid, s, 0) ∧
      (getMintOperator s).2 = (s, 0) ∧
      (getBurnOperator s).2 = (s, 0) ∧
      (getMintOperator s).1.isSome = true ∧
      (getBurnOperator s).1.isSome = true) := by
  refine ⟨?_, ?_, ?_, ?_, ?_⟩
  · intro registry n s d hs
    simp [loadDDO, hs]
  · intro registry n did
    simp [loadDDO]
  · intro registry n s d hs
    refine ⟨by simp [getTokenAddress, loadDDO, hs], by simp [getTokenName, loadDDO, hs],
      by simp [getAgentWallet, loadDDO, hs],
      by simp [get1155ContractAddress, loadDDO, hs],
      by simp [getPlanPrice, loadDDO, hs], ?_, ?_⟩
    · intro hp
      simp [getPlanPrice, loadDDO, hs, hp]
    · intro p hp
      simp [getPlanPrice, loadDDO, hs, hp]
  · intro registry n did
    exact ⟨by simp [getTokenAddress, loadDDO], by simp [getTokenName, loadDDO],
      by simp [getAgentWallet, loadDDO], by simp [get1155ContractAddress, loadDDO],
      by simp [getPlanPrice, loadDDO]⟩
  · intro s
    exact ⟨rfl, rfl, rfl, rfl, rfl⟩

/-- C8, witness: a cache hit performs no registry call and reuses the cached
DDO; a fresh instance fetches exactly once and memoizes; a cached accessor
returns the cached projection; a missing price yields the default `"0"`; the
token id needs no registry. -/
theorem C8_memoized_accessors_witness :
    loadDDO (fun _ => noPriceDDO) 3 ⟨7, some zeroPriceDDO⟩ =
      (zeroPriceDDO, ⟨7, some zeroPriceDDO⟩, 0) ∧
    loadDDO (fun _ => noPriceDDO) 0 ⟨7, none⟩ = (noPriceDDO, ⟨7, some noPriceDDO⟩, 1) ∧
    getTokenAddress (fun _ => noPriceDDO) 1 ⟨7, some zeroPriceDDO⟩ =
      (some 1, ⟨7, some zeroPriceDDO⟩, 0) ∧
    (getPlanPrice (fun _ => noPriceDDO) 0 ⟨7, some noPriceDDO⟩).1 = "0" ∧
    getTokenId ⟨7, some noPriceDDO⟩ = ("7", ⟨7, some noPriceDDO⟩, 0) := by
  refine ⟨C8_memoized_accessors.1 _ 3 _ zeroPriceDDO rfl,
    C8_memoized_accessors.2.1 _ 0 7,
    (C8_memoized_accessors.2.2.1 _ 1 _ zeroPriceDDO rfl).1,
    (C8_memoized_accessors.2.2.1 _ 0 _ noPriceDDO rfl).2.2.2.2.2.1 rfl,
    (C8_memoized_accessors.2.2.2.2 _).1⟩

/-- Baseline low-balance settlement world with differing tokens and healthy
oracles; the C3 witness overrides individual oracles to make one sub-step
fail. -/
def lowBalanceWorld : SettleWorld where
  getPlanBalance := .ok ⟨0, false⟩
  externalTokenAddress := some 1
  ourTokenAddress := some 2
  planPrice := 5
  agentWallet := some 3
  isBalanceSufficientAt := fun _ => .ok false
  swapEnvAt := fun _ => ⟨false, 500, 10, false, false, 77, ⟨9, 2, false, 88⟩⟩
  orderPlanAt := fun _ => .ok ⟨true, 41⟩
  mintScan := .ok []

/-- C3, witness: concrete settlement runs for each amended conjunct — a failing
balance query is attempted once and fails the step; a failing sufficiency
check is attempted 3 times; a failing swap unit is attempted 3 times; a
failing order is attempted 3 times; a failing mint scan is attempted once. -/
theorem C3_retry_wrapping_witness :
    ensureSufficientBalance { lowBalanceWorld with getPlanBalance := .error .balanceError } 1 =
      (false, [SEvent.getPlanBalanceCall, SEvent.stepFailedWrite]) ∧
    ensureSufficientBalance
        { lowBalanceWorld with isBalanceSufficientAt := fun _ => .error .sufficiencyError } 1 =
      (false, SEvent.getPlanBalanceCall ::
        (List.replicate 3 SEvent.isBalanceSufficientCall ++ [SEvent.stepFailedWrite])) ∧
    ensureSufficientBalance
        { lowBalanceWorld with
            swapEnvAt := fun _ => ⟨true, 500, 10, false, false, 77, ⟨9, 2, false, 88⟩⟩ } 1 =
      (false, SEvent.getPlanBalanceCall :: SEvent.isBalanceSufficientCall ::
        (List.replicate 3 SEvent.swapCall ++ [SEvent.stepFailedWrite])) ∧
    ensureSufficientBalance
        { lowBalanceWorld with
            ourTokenAddress := some 1
            orderPlanAt := fun _ => .error .orderError } 1 =
      (false, SEvent.getPlanBalanceCall ::
        (List.replicate 3 SEvent.orderPlanCall ++ [SEvent.stepFailedWrite])) ∧
    ensureSufficientBalance
        { lowBalanceWorld with
            ourTokenAddress := some 1
            mintScan := .error .scanError } 1 =
      (false, [SEvent.getPlanBalanceCall, SEvent.orderPlanCall, SEvent.mintScanCall,
        SEvent.stepFailedWrite]) := by
  refine ⟨C3_retry_wrapping.1 _ 1 .balanceError rfl,
    C3_retry_wrapping.2.1 _ 1 ⟨0, false⟩ (fun _ => .sufficiencyError) 1 2 3 rfl (by decide)
      rfl rfl rfl (by decide) rfl (fun _ _ => rfl),
    C3_retry_wrapping.2.2.1 _ 1 ⟨0, false⟩ (fun _ => .quoteError) 1 2 3 rfl (by decide)
      rfl rfl rfl (by decide) rfl rfl (fun _ _ => rfl),
    C3_retry_wrapping.2.2.2.1 _ 1 ⟨0, false⟩ (fun _ => .orderError) rfl (by decide) rfl rfl
      (fun _ _ => rfl),
    C3_retry_wrapping.2.2.2.2 _ 1 ⟨0, false⟩ 41 rfl (by decide) rfl rfl rfl rfl⟩

end MVOrch
